import Mathlib

/-!
Verification of the ForzaAITuner telemetry ingestion core.

Shallow embedding of `src/forza_core`: the binary packet decoder
(`application/packet_parser.py`), the race-state monitor
(`application/race_monitor.py`), the ingestion buffering / flushing / save
logic (`application/ingestion_service.py`), the UDP listener
(`infrastructure/udp_transport.py`), the Postgres batch sink
(`infrastructure/postgres_db.py`) and the control API
(`api/server.py`).

Bytes are modelled as `List Nat` (each entry one byte), Python floats such
as `time.time()` values as `ℚ`, and `f32` wire fields by their raw
little-endian 32-bit value (the pipeline never computes with them, it only
stores and copies them).
-/

set_option maxHeartbeats 1000000
set_option maxRecDepth 8192

namespace ForzaCore

/-- Little-endian value of a byte list: `leNat [b0, b1, ...] = b0 + 256*b1 + ...`. -/
def leNat : List Nat → Nat
  | [] => 0
  | b :: bs => b + 256 * leNat bs

/-- Read `n` bytes at byte offset `off` of `data` as an unsigned
little-endian integer, as `struct.unpack_from` does for `I`, `H`, `B`
(and for the raw bits of `f`). -/
def readU (data : List Nat) (off n : Nat) : Nat :=
  leNat ((data.drop off).take n)

/-- Two's-complement reinterpretation of a `w`-bit unsigned value. -/
def toSigned (w : Nat) (v : Nat) : Int :=
  if v < 2 ^ (w - 1) then (v : Int) else (v : Int) - 2 ^ w

/-- Read `n` bytes at offset `off` as a signed little-endian integer, as
`struct.unpack_from` does for `i` and `b`. -/
def readI (data : List Nat) (off n : Nat) : Int :=
  toSigned (8 * n) (readU data off n)

/-- Modelled from the spec: the dataclass `TelemetryPacket` lives in
`src/forza_core/domain/models.py`, which is absent from the snapshot; the
field list and order are taken from spec §3/§6 and from the constructor
call in `PacketParser.parse`. `f32` fields carry raw LE bits as `Nat`. -/
structure TelemetryPacket where
  is_race_on : Int
  timestamp_ms : Nat
  engine_max_rpm : Nat
  engine_idle_rpm : Nat
  current_engine_rpm : Nat
  acceleration_x : Nat
  acceleration_y : Nat
  acceleration_z : Nat
  velocity_x : Nat
  velocity_y : Nat
  velocity_z : Nat
  angular_velocity_x : Nat
  angular_velocity_y : Nat
  angular_velocity_z : Nat
  yaw : Nat
  pitch : Nat
  roll : Nat
  normalized_suspension_travel_fl : Nat
  normalized_suspension_travel_fr : Nat
  normalized_suspension_travel_rl : Nat
  normalized_suspension_travel_rr : Nat
  tire_slip_ratio_fl : Nat
  tire_slip_ratio_fr : Nat
  tire_slip_ratio_rl : Nat
  tire_slip_ratio_rr : Nat
  wheel_rotation_speed_fl : Nat
  wheel_rotation_speed_fr : Nat
  wheel_rotation_speed_rl : Nat
  wheel_rotation_speed_rr : Nat
  wheel_on_rumble_strip_fl : Int
  wheel_on_rumble_strip_fr : Int
  wheel_on_rumble_strip_rl : Int
  wheel_on_rumble_strip_rr : Int
  wheel_in_puddle_depth_fl : Nat
  wheel_in_puddle_depth_fr : Nat
  wheel_in_puddle_depth_rl : Nat
  wheel_in_puddle_depth_rr : Nat
  surface_rumble_fl : Nat
  surface_rumble_fr : Nat
  surface_rumble_rl : Nat
  surface_rumble_rr : Nat
  tire_slip_angle_fl : Nat
  tire_slip_angle_fr : Nat
  tire_slip_angle_rl : Nat
  tire_slip_angle_rr : Nat
  tire_combined_slip_fl : Nat
  tire_combined_slip_fr : Nat
  tire_combined_slip_rl : Nat
  tire_combined_slip_rr : Nat
  suspension_travel_meters_fl : Nat
  suspension_travel_meters_fr : Nat
  suspension_travel_meters_rl : Nat
  suspension_travel_meters_rr : Nat
  car_ordinal : Int
  car_class : Int
  car_performance_index : Int
  drivetrain_type : Int
  num_cylinders : Int
  position_x : Nat
  position_y : Nat
  position_z : Nat
  speed : Nat
  power : Nat
  torque : Nat
  tire_temp_fl : Nat
  tire_temp_fr : Nat
  tire_temp_rl : Nat
  tire_temp_rr : Nat
  boost : Nat
  fuel : Nat
  distance_traveled : Nat
  best_lap : Nat
  last_lap : Nat
  current_lap : Nat
  current_race_time : Nat
  lap_number : Nat
  race_position : Nat
  accel : Nat
  brake : Nat
  clutch : Nat
  handbrake : Nat
  gear : Nat
  steer : Int
  normalized_driving_line : Int
  normalized_ai_brake_difference : Int
  session_id : Option Int
  deriving Repr, DecidableEq

/-- The fields of `struct.unpack_from(_FORMAT_V1, data)` assembled into a
`TelemetryPacket`, mirroring the constructor call in `PacketParser.parse`.
`f32` fields are carried as their raw little-endian 32-bit value. -/
def PacketParser.decodeV1 (data : List Nat) : TelemetryPacket where
  is_race_on := readI data 0 4
  timestamp_ms := readU data 4 4
  engine_max_rpm := readU data 8 4
  engine_idle_rpm := readU data 12 4
  current_engine_rpm := readU data 16 4
  acceleration_x := readU data 20 4
  acceleration_y := readU data 24 4
  acceleration_z := readU data 28 4
  velocity_x := readU data 32 4
  velocity_y := readU data 36 4
  velocity_z := readU data 40 4
  angular_velocity_x := readU data 44 4
  angular_velocity_y := readU data 48 4
  angular_velocity_z := readU data 52 4
  yaw := readU data 56 4
  pitch := readU data 60 4
  roll := readU data 64 4
  normalized_suspension_travel_fl := readU data 68 4
  normalized_suspension_travel_fr := readU data 72 4
  normalized_suspension_travel_rl := readU data 76 4
  normalized_suspension_travel_rr := readU data 80 4
  tire_slip_ratio_fl := readU data 84 4
  tire_slip_ratio_fr := readU data 88 4
  tire_slip_ratio_rl := readU data 92 4
  tire_slip_ratio_rr := readU data 96 4
  wheel_rotation_speed_fl := readU data 100 4
  wheel_rotation_speed_fr := readU data 104 4
  wheel_rotation_speed_rl := readU data 108 4
  wheel_rotation_speed_rr := readU data 112 4
  wheel_on_rumble_strip_fl := readI data 116 4
  wheel_on_rumble_strip_fr := readI data 120 4
  wheel_on_rumble_strip_rl := readI data 124 4
  wheel_on_rumble_strip_rr := readI data 128 4
  wheel_in_puddle_depth_fl := readU data 132 4
  wheel_in_puddle_depth_fr := readU data 136 4
  wheel_in_puddle_depth_rl := readU data 140 4
  wheel_in_puddle_depth_rr := readU data 144 4
  surface_rumble_fl := readU data 148 4
  surface_rumble_fr := readU data 152 4
  surface_rumble_rl := readU data 156 4
  surface_rumble_rr := readU data 160 4
  tire_slip_angle_fl := readU data 164 4
  tire_slip_angle_fr := readU data 168 4
  tire_slip_angle_rl := readU data 172 4
  tire_slip_angle_rr := readU data 176 4
  tire_combined_slip_fl := readU data 180 4
  tire_combined_slip_fr := readU data 184 4
  tire_combined_slip_rl := readU data 188 4
  tire_combined_slip_rr := readU data 192 4
  suspension_travel_meters_fl := readU data 196 4
  suspension_travel_meters_fr := readU data 200 4
  suspension_travel_meters_rl := readU data 204 4
  suspension_travel_meters_rr := readU data 208 4
  car_ordinal := readI data 212 4
  car_class := readI data 216 4
  car_performance_index := readI data 220 4
  drivetrain_type := readI data 224 4
  num_cylinders := readI data 228 4
  position_x := readU data 232 4
  position_y := readU data 236 4
  position_z := readU data 240 4
  speed := readU data 244 4
  power := readU data 248 4
  torque := readU data 252 4
  tire_temp_fl := readU data 256 4
  tire_temp_fr := readU data 260 4
  tire_temp_rl := readU data 264 4
  tire_temp_rr := readU data 268 4
  boost := readU data 272 4
  fuel := readU data 276 4
  distance_traveled := readU data 280 4
  best_lap := readU data 284 4
  last_lap := readU data 288 4
  current_lap := readU data 292 4
  current_race_time := readU data 296 4
  lap_number := readU data 300 2
  race_position := readU data 302 1
  accel := readU data 303 1
  brake := readU data 304 1
  clutch := readU data 305 1
  handbrake := readU data 306 1
  gear := readU data 307 1
  steer := readI data 308 1
  normalized_driving_line := readI data 309 1
  normalized_ai_brake_difference := readI data 310 1
  session_id := none
/-- `struct.unpack_from(_FORMAT_V1, data)`: succeeds iff the buffer holds at
least `struct.calcsize(_FORMAT_V1) = 311` bytes, otherwise `struct.error`
(modelled as `none`, the value `PacketParser.parse` returns in that case). -/
def PacketParser.unpackV1 (data : List Nat) : Option TelemetryPacket :=
  if 311 ≤ data.length then some (PacketParser.decodeV1 data) else none

/-- `PacketParser.parse`: accept exactly lengths 324 ("Data Out") and 311
("Dash"), then unpack the `_FORMAT_V1` prefix; any decode failure is `None`. -/
def PacketParser.parse (data : List Nat) : Option TelemetryPacket :=
  if data.length = 324 then PacketParser.unpackV1 data
  else if data.length = 311 then PacketParser.unpackV1 data
  else none

/-- A packet with every numeric field `0` and `session_id = none`; the
`getD` default and the base of concrete test packets. -/
def zeroPacket : TelemetryPacket where
  is_race_on := 0
  timestamp_ms := 0
  engine_max_rpm := 0
  engine_idle_rpm := 0
  current_engine_rpm := 0
  acceleration_x := 0
  acceleration_y := 0
  acceleration_z := 0
  velocity_x := 0
  velocity_y := 0
  velocity_z := 0
  angular_velocity_x := 0
  angular_velocity_y := 0
  angular_velocity_z := 0
  yaw := 0
  pitch := 0
  roll := 0
  normalized_suspension_travel_fl := 0
  normalized_suspension_travel_fr := 0
  normalized_suspension_travel_rl := 0
  normalized_suspension_travel_rr := 0
  tire_slip_ratio_fl := 0
  tire_slip_ratio_fr := 0
  tire_slip_ratio_rl := 0
  tire_slip_ratio_rr := 0
  wheel_rotation_speed_fl := 0
  wheel_rotation_speed_fr := 0
  wheel_rotation_speed_rl := 0
  wheel_rotation_speed_rr := 0
  wheel_on_rumble_strip_fl := 0
  wheel_on_rumble_strip_fr := 0
  wheel_on_rumble_strip_rl := 0
  wheel_on_rumble_strip_rr := 0
  wheel_in_puddle_depth_fl := 0
  wheel_in_puddle_depth_fr := 0
  wheel_in_puddle_depth_rl := 0
  wheel_in_puddle_depth_rr := 0
  surface_rumble_fl := 0
  surface_rumble_fr := 0
  surface_rumble_rl := 0
  surface_rumble_rr := 0
  tire_slip_angle_fl := 0
  tire_slip_angle_fr := 0
  tire_slip_angle_rl := 0
  tire_slip_angle_rr := 0
  tire_combined_slip_fl := 0
  tire_combined_slip_fr := 0
  tire_combined_slip_rl := 0
  tire_combined_slip_rr := 0
  suspension_travel_meters_fl := 0
  suspension_travel_meters_fr := 0
  suspension_travel_meters_rl := 0
  suspension_travel_meters_rr := 0
  car_ordinal := 0
  car_class := 0
  car_performance_index := 0
  drivetrain_type := 0
  num_cylinders := 0
  position_x := 0
  position_y := 0
  position_z := 0
  speed := 0
  power := 0
  torque := 0
  tire_temp_fl := 0
  tire_temp_fr := 0
  tire_temp_rl := 0
  tire_temp_rr := 0
  boost := 0
  fuel := 0
  distance_traveled := 0
  best_lap := 0
  last_lap := 0
  current_lap := 0
  current_race_time := 0
  lap_number := 0
  race_position := 0
  accel := 0
  brake := 0
  clutch := 0
  handbrake := 0
  gear := 0
  steer := 0
  normalized_driving_line := 0
  normalized_ai_brake_difference := 0
  session_id := none

/-- `zeroPacket` with a chosen `is_race_on` value. -/
def packetR (r : Int) : TelemetryPacket :=
  { zeroPacket with is_race_on := r }

/-- `domain/events.py`: the only domain event class the code defines is
`RaceStarted` (a frozen dataclass); there is no `RaceEnded`/`RaceStopped`
event class. `timestamp` holds `current_race_time` (raw f32 bits). -/
structure RaceStarted where
  timestamp : Nat
  car_ordinal : Int
  car_class : Int
  car_performance_index : Int
  deriving Repr, DecidableEq

/-- The `RaceStarted` event `RaceStateMonitor.detect_events` builds from a
packet. -/
def RaceStarted.ofPacket (p : TelemetryPacket) : RaceStarted :=
  ⟨p.current_race_time, p.car_ordinal, p.car_class, p.car_performance_index⟩

/-- `race_monitor.py`: the monitor holds one scalar `_last_is_race_on`,
initially `0`. -/
structure RaceStateMonitor where
  last_is_race_on : Int
  deriving Repr, DecidableEq

/-- `RaceStateMonitor()` constructor: `_last_is_race_on = 0`. -/
def RaceStateMonitor.init : RaceStateMonitor := ⟨0⟩

/-- `RaceStateMonitor.detect_events`: append a `RaceStarted` event exactly
when `_last_is_race_on == 0 and packet.is_race_on == 1`; nothing is
appended on any other transition (the code has no ended-event class); then
`_last_is_race_on = packet.is_race_on`. Returns `(events, new state)`. -/
def RaceStateMonitor.detect_events (m : RaceStateMonitor) (p : TelemetryPacket) :
    List RaceStarted × RaceStateMonitor :=
  (if m.last_is_race_on = 0 ∧ p.is_race_on = 1 then [RaceStarted.ofPacket p] else [],
   ⟨p.is_race_on⟩)

/-- `detect_events` folded over a packet sequence: the per-packet event
lists together with the final monitor state. -/
def RaceStateMonitor.run (m : RaceStateMonitor) :
    List TelemetryPacket → List (List RaceStarted) × RaceStateMonitor
  | [] => ([], m)
  | p :: ps =>
    let step := m.detect_events p
    let rest := RaceStateMonitor.run step.2 ps
    (step.1 :: rest.1, rest.2)

/-- `config.py`: `IngestionConfig` with `buffer_size` (default 60) and
`flush_interval_sec` (default 1.0). -/
structure IngestionConfig where
  buffer_size : Nat
  flush_interval_sec : ℚ
  deriving Repr, DecidableEq

/-- The pydantic defaults of `IngestionConfig`. -/
def IngestionConfig.default : IngestionConfig := ⟨60, 1⟩

/-- The mutable state of `IngestionService` that the buffering / flushing /
session logic touches: `_buffer`, `_monitor`, `_last_flush_time`,
the batches handed to spawned `_save_safe` tasks (`_active_saves`), and
`_current_session_id`. -/
structure IngestionState where
  buffer : List TelemetryPacket
  monitor : RaceStateMonitor
  last_flush_time : ℚ
  active_saves : List (List TelemetryPacket)
  current_session_id : Option Int
  deriving Repr, DecidableEq

/-- `IngestionService._flush` at time `now`: under the flush lock, if the
buffer is empty return unchanged; otherwise move the buffer out, clear it,
set `_last_flush_time = now`, and hand the moved batch to a spawned
`_save_safe` task. -/
def IngestionService.flushStep (now : ℚ) (s : IngestionState) : IngestionState :=
  if s.buffer = [] then s
  else { s with
          buffer := [],
          last_flush_time := now,
          active_saves := s.active_saves ++ [s.buffer] }

/-- Python truthiness of `self._current_session_id`: `None` and `0` are
falsy, every other int is truthy. -/
def truthyId : Option Int → Bool
  | none => false
  | some i => i != 0

/-- The enrichment step inside `IngestionService._process_packet`: build
`enrichment` (a `session_id` entry only `if self._current_session_id:`)
and `dataclasses.replace(packet, **enrichment)`. -/
def IngestionService.enrichPacket (sid : Option Int) (p : TelemetryPacket) :
    TelemetryPacket :=
  if truthyId sid then { p with session_id := sid } else p

/-- `IngestionService._process_packet` at time `now`: run the monitor (its
events are only logged); if `packet.is_race_on == 1` enrich, append to the
buffer and flush when `len(buffer) >= buffer_size`; otherwise do nothing
further (the `else` branch is `pass`). -/
def IngestionService.processPacket (cfg : IngestionConfig) (now : ℚ)
    (s : IngestionState) (p : TelemetryPacket) : IngestionState :=
  let s1 : IngestionState := { s with monitor := (s.monitor.detect_events p).2 }
  if p.is_race_on = 1 then
    let s2 : IngestionState :=
      { s1 with buffer := s1.buffer ++ [IngestionService.enrichPacket s1.current_session_id p] }
    if cfg.buffer_size ≤ s2.buffer.length then IngestionService.flushStep now s2 else s2
  else s1

/-- `IngestionService.set_session`: `_current_session_id = await
self._repo.create_session(...)` on success; on failure the exception is
caught and only logged, leaving `_current_session_id` untouched. The
store call is abstracted by its outcome `createResult`. -/
def IngestionService.set_session (current : Option Int)
    (createResult : Except String Int) : Option Int :=
  match createResult with
  | .ok newId => some newId
  | .error _ => current

/-- `api/schemas.py` `OperationResponse`. -/
structure OperationResponse where
  status : String
  message : String
  deriving Repr, DecidableEq

/-- `api/server.py` `start_session` handler: awaits
`ingestion_service.set_session(...)` and unconditionally answers
`OperationResponse(status="success", message="Session started")`. -/
def Server.start_session (current : Option Int)
    (createResult : Except String Int) : Option Int × OperationResponse :=
  (IngestionService.set_session current createResult,
   ⟨"success", "Session started"⟩)

/-- Observable actions of one `IngestionService._save_safe` run:
a `repo.save_batch` call, a retry warning, an `asyncio.sleep`, or the
final dropped-count error log. -/
inductive SaveAction where
  | attemptSave
  | warnRetry (attempt : Nat)
  | sleepSec (seconds : ℚ)
  | logDropped (droppedCount : Nat)
  deriving Repr, DecidableEq

/-- `max_retries = 3` in `_save_safe`. -/
def maxRetries : Nat := 3

/-- The body of `for attempt in range(max_retries)` in `_save_safe`:
call `save_batch` (outcome given by `failsAt attempt`); on success return;
on failure either warn and `sleep(0.5 * (attempt + 1))` and continue, or —
on the last attempt — log the dropped count. Exceptions never escape. -/
def IngestionService.saveAttempts (failsAt : Nat → Bool) (batchLen : Nat) :
    List Nat → List SaveAction
  | [] => []
  | attempt :: rest =>
    if failsAt attempt then
      if attempt < maxRetries - 1 then
        SaveAction.attemptSave :: SaveAction.warnRetry (attempt + 1) ::
          SaveAction.sleepSec ((1 / 2 : ℚ) * ((attempt : ℚ) + 1)) ::
            IngestionService.saveAttempts failsAt batchLen rest
      else
        [SaveAction.attemptSave, SaveAction.logDropped batchLen]
    else
      [SaveAction.attemptSave]

/-- `IngestionService._save_safe(packets)` with the store failing exactly on
the attempts where `failsAt` is true: the sequence of observable actions. -/
def IngestionService.save_safe (failsAt : Nat → Bool)
    (packets : List TelemetryPacket) : List SaveAction :=
  IngestionService.saveAttempts failsAt packets.length (List.range maxRetries)

/-- `udp_transport.py` `UdpListener` state: the `asyncio.Queue` contents
(datagram bytes with peer address) and `_last_error_log_time`. -/
structure UdpListener where
  queue : List (List Nat × String × Nat)
  last_error_log_time : ℚ
  deriving DecidableEq

/-- `UdpListener.datagram_received` with queue capacity `maxsize` at time
`now`: `put_nowait` appends when the queue is not full; on `QueueFull` the
datagram is dropped and the queue-full warning is logged only when at
least one second passed since `_last_error_log_time` (which is then
updated). Returns the new state and whether the warning was logged. -/
def UdpListener.datagram_received (maxsize : Nat) (l : UdpListener)
    (data : List Nat) (addr : String × Nat) (now : ℚ) : UdpListener × Bool :=
  if l.queue.length < maxsize then
    ({ l with queue := l.queue ++ [(data, addr)] }, false)
  else if 1 ≤ now - l.last_error_log_time then
    ({ l with last_error_log_time := now }, true)
  else
    (l, false)

/-- `main.py` creates the channel as `asyncio.Queue(maxsize=10000)`. -/
def queueMaxsize : Nat := 10000

/-- Store operations of `postgres_db.py`. -/
inductive StoreOp where
  | copyRecords (table : String) (rows : Nat)
  deriving Repr, DecidableEq

/-- `PostgresRepository.save_batch`: `if not packets: return`, otherwise one
`copy_records_to_table('telemetry_packets', ...)` with one row per packet. -/
def PostgresRepository.save_batch (packets : List TelemetryPacket) : List StoreOp :=
  if packets = [] then []
  else [StoreOp.copyRecords "telemetry_packets" packets.length]

/-- Reading inside the first `b.length` bytes is unaffected by appending a
trailer `t`. -/
theorem readU_append {b t : List Nat} {off n : Nat} (h : off + n ≤ b.length) :
    readU (b ++ t) off n = readU b off n := by
  unfold readU
  rw [List.drop_append_eq_append_drop]
  have hob : off ≤ b.length := le_trans (Nat.le_add_right _ _) h
  rw [Nat.sub_eq_zero_of_le hob, List.drop_zero]
  rw [List.take_append_eq_append_take]
  have hn : n ≤ (List.drop off b).length := by
    rw [List.length_drop]; omega
  rw [Nat.sub_eq_zero_of_le hn, List.take_zero, List.append_nil]

/-- Reading inside the first `m` bytes only looks at the first `m` bytes. -/
theorem readU_take {data : List Nat} {m off n : Nat} (h : off + n ≤ m) :
    readU (data.take m) off n = readU data off n := by
  unfold readU
  rw [List.drop_take, List.take_take]
  have hmin : min n (m - off) = n := by omega
  rw [hmin]

/-- Every field of `_FORMAT_V1` lies in the first 311 bytes, so a trailer
after byte 311 never changes the decoded record. -/
theorem decodeV1_append {b t : List Nat} (hb : b.length = 311) :
    PacketParser.decodeV1 (b ++ t) = PacketParser.decodeV1 b := by
  simp (disch := omega) only [PacketParser.decodeV1, readI, readU_append, hb]

/-- Decoding only reads the first 311 bytes of the buffer. -/
theorem decodeV1_take311 (data : List Nat) :
    PacketParser.decodeV1 (data.take 311) = PacketParser.decodeV1 data := by
  simp (disch := omega) only [PacketParser.decodeV1, readI, readU_take]

/-- Claim C3: a byte sequence whose length is neither 311 nor 324 is
rejected (`None`, the spec's `UnsupportedLength`); a byte sequence of
length 311 or 324 decodes to a record read from the first 311 bytes, the
13-byte trailer of the 324-byte form being ignored. -/
theorem parse_length_contract :
    (∀ data : List Nat, data.length ≠ 311 → data.length ≠ 324 →
        PacketParser.parse data = none)
    ∧ (∀ b t : List Nat, b.length = 311 → t.length = 13 →
        PacketParser.parse (b ++ t) = PacketParser.parse b
        ∧ ∃ p, PacketParser.parse b = some p) := by
  constructor
  · intro data h1 h2
    simp [PacketParser.parse, h1, h2]
  · intro b t hb ht
    have hlen : (b ++ t).length = 324 := by simp [hb, ht]
    have hne : b.length ≠ 324 := by omega
    constructor
    · rw [PacketParser.parse, if_pos hlen, PacketParser.parse, if_neg hne, if_pos hb]
      rw [PacketParser.unpackV1, PacketParser.unpackV1,
          if_pos (by omega : 311 ≤ (b ++ t).length), if_pos (by omega : 311 ≤ b.length)]
      rw [decodeV1_append hb]
    · refine ⟨PacketParser.decodeV1 b, ?_⟩
      rw [PacketParser.parse, if_neg hne, if_pos hb, PacketParser.unpackV1,
          if_pos (by omega : 311 ≤ b.length)]

/-- Witness for C3 at concrete inputs. -/
theorem parse_length_contract_witness :
    PacketParser.parse (List.replicate 2 0) = none
    ∧ PacketParser.parse (List.replicate 311 0 ++ List.replicate 13 0)
        = PacketParser.parse (List.replicate 311 0)
    ∧ ∃ p, PacketParser.parse (List.replicate 311 0) = some p :=
  ⟨parse_length_contract.1 (List.replicate 2 0) (by simp) (by simp),
   (parse_length_contract.2 (List.replicate 311 0) (List.replicate 13 0)
      (by simp) (by simp)).1,
   (parse_length_contract.2 (List.replicate 311 0) (List.replicate 13 0)
      (by simp) (by simp)).2⟩

/-- Claim C9: for an accepted length (311 or 324) the decoder always
succeeds — the `struct.error` (`Malformed`) branch is unreachable, because
`_FORMAT_V1` consumes exactly 311 bytes and decoding reads only the
311-byte prefix of the input. -/
theorem parse_accepted_total (data : List Nat)
    (h : data.length = 311 ∨ data.length = 324) :
    PacketParser.parse data = some (PacketParser.decodeV1 (data.take 311)) := by
  rw [decodeV1_take311]
  rcases h with h | h
  · have hne : data.length ≠ 324 := by omega
    rw [PacketParser.parse, if_neg hne, if_pos h, PacketParser.unpackV1,
        if_pos (by omega : 311 ≤ data.length)]
  · rw [PacketParser.parse, if_pos h, PacketParser.unpackV1,
        if_pos (by omega : 311 ≤ data.length)]

/-- Witness for C9 at a concrete 324-byte input. -/
theorem parse_accepted_total_witness :
    PacketParser.parse (List.replicate 324 5) =
      some (PacketParser.decodeV1 ((List.replicate 324 5).take 311)) :=
  parse_accepted_total _ (Or.inr (by simp))

/-- The `is_race_on` the monitor saw before packet `i` of a run that starts
in the initial state: `0` for the first packet, else packet `i-1`'s value. -/
def prevRaceOn (ps : List TelemetryPacket) (i : Nat) : Int :=
  if i = 0 then 0 else (ps.getD (i - 1) zeroPacket).is_race_on

theorem run_events_getD (m : RaceStateMonitor) (ps : List TelemetryPacket) (i : Nat)
    (h : i < ps.length) :
    (RaceStateMonitor.run m ps).1.getD i [] =
      if (if i = 0 then m.last_is_race_on else (ps.getD (i - 1) zeroPacket).is_race_on) = 0
          ∧ (ps.getD i zeroPacket).is_race_on = 1
      then [RaceStarted.ofPacket (ps.getD i zeroPacket)] else [] := by
  induction ps generalizing m i with
  | nil => simp at h
  | cons p ps ih =>
    cases i with
    | zero =>
      simp [RaceStateMonitor.run, RaceStateMonitor.detect_events]
    | succ i =>
      have h' : i < ps.length := by simpa using h
      simp only [RaceStateMonitor.run, RaceStateMonitor.detect_events, List.getD_cons_succ]
      rw [ih ⟨p.is_race_on⟩ i h']
      cases i with
      | zero => simp
      | succ j => simp

theorem run_state_take (m : RaceStateMonitor) (ps : List TelemetryPacket) (i : Nat)
    (h : i < ps.length) :
    (RaceStateMonitor.run m (ps.take (i + 1))).2 =
      ⟨(ps.getD i zeroPacket).is_race_on⟩ := by
  induction ps generalizing m i with
  | nil => simp at h
  | cons p ps ih =>
    cases i with
    | zero =>
      simp [RaceStateMonitor.run, RaceStateMonitor.detect_events]
    | succ i =>
      have h' : i < ps.length := by simpa using h
      simp only [List.take_succ_cons, RaceStateMonitor.run,
        RaceStateMonitor.detect_events, List.getD_cons_succ]
      exact ih ⟨p.is_race_on⟩ i h'

/-- Counterexample to claim C2 as stated: feeding `[is_race_on=1, is_race_on=0]`
to a fresh monitor, the second packet is a `1 → 0` transition, yet the
monitor emits no event there at all — the code defines no ended-event
class and `detect_events` appends nothing on `1 → 0`. -/
theorem raceMonitor_ended_counterexample :
    (RaceStateMonitor.run RaceStateMonitor.init [packetR 1, packetR 0]).1.getD 1 [] = []
    ∧ (RaceStateMonitor.run RaceStateMonitor.init [packetR 1, packetR 0]).1 =
        [[RaceStarted.ofPacket (packetR 1)], []] := by
  exact ⟨rfl, rfl⟩

/-- Claim C2 (amended): over any packet sequence from the initial monitor
state (`last_is_race_on = 0`), a `Started` event is emitted exactly when
the previous `is_race_on` (0 initially) is 0 and the current packet's is
1; nothing is emitted otherwise — in particular no `Ended` event exists —
and after each packet the state equals that packet's `is_race_on`. -/
theorem raceMonitor_started_only (ps : List TelemetryPacket) (i : Nat) (h : i < ps.length) :
    ((RaceStateMonitor.run RaceStateMonitor.init ps).1.getD i [] =
      if prevRaceOn ps i = 0 ∧ (ps.getD i zeroPacket).is_race_on = 1
      then [RaceStarted.ofPacket (ps.getD i zeroPacket)] else [])
    ∧ (RaceStateMonitor.run RaceStateMonitor.init (ps.take (i + 1))).2.last_is_race_on
        = (ps.getD i zeroPacket).is_race_on := by
  constructor
  · rw [run_events_getD RaceStateMonitor.init ps i h]
    simp [prevRaceOn, RaceStateMonitor.init]
  · rw [run_state_take RaceStateMonitor.init ps i h]

/-- Witness for C2 (amended) on the concrete sequence `[race off, race on]`
at index 1. -/
theorem raceMonitor_started_only_witness :
    ((RaceStateMonitor.run RaceStateMonitor.init [packetR 0, packetR 1]).1.getD 1 [] =
      if prevRaceOn [packetR 0, packetR 1] 1 = 0
          ∧ (([packetR 0, packetR 1] : List TelemetryPacket).getD 1 zeroPacket).is_race_on = 1
      then [RaceStarted.ofPacket (([packetR 0, packetR 1] : List TelemetryPacket).getD 1 zeroPacket)] else [])
    ∧ (RaceStateMonitor.run RaceStateMonitor.init
        (([packetR 0, packetR 1] : List TelemetryPacket).take 2)).2.last_is_race_on
        = (([packetR 0, packetR 1] : List TelemetryPacket).getD 1 zeroPacket).is_race_on :=
  raceMonitor_started_only [packetR 0, packetR 1] 1 (by decide)

/-- A service state mid-race: one buffered in-race packet, monitor in-race
(`last_is_race_on = 1`), nothing handed to the save executor yet. -/
def stateBuf1 : IngestionState :=
  { buffer := [packetR 1], monitor := ⟨1⟩, last_flush_time := 0,
    active_saves := [], current_session_id := none }

/-- Counterexample to claim C1 as stated: with the monitor in-race and a
non-empty buffer, processing a packet with `is_race_on = 0` (a
`RaceEnded` transition) triggers no flush — nothing is handed to the save
executor and the buffered packet stays in the buffer. -/
theorem raceEnd_flush_counterexample :
    (IngestionService.processPacket IngestionConfig.default 5 stateBuf1 (packetR 0)).active_saves
      = []
    ∧ (IngestionService.processPacket IngestionConfig.default 5 stateBuf1 (packetR 0)).buffer
      = [packetR 1]
    ∧ stateBuf1.monitor.last_is_race_on = 1 ∧ (packetR 0).is_race_on = 0 := by
  exact ⟨rfl, rfl, rfl, rfl⟩

/-- Claim C1 (amended): a packet with `is_race_on ≠ 1` — in particular one
completing a `1 → 0` `RaceEnded` transition — triggers no flush and is not
appended: processing it only updates the monitor state, leaving buffer,
last-flush time, save hand-offs and session id untouched. -/
theorem nonRaceOn_only_updates_monitor (cfg : IngestionConfig) (now : ℚ)
    (s : IngestionState) (p : TelemetryPacket) (h : p.is_race_on ≠ 1) :
    IngestionService.processPacket cfg now s p = { s with monitor := ⟨p.is_race_on⟩ } := by
  simp [IngestionService.processPacket, RaceStateMonitor.detect_events, h]

/-- Witness for C1 (amended) at a concrete mid-race state. -/
theorem nonRaceOn_only_updates_monitor_witness :
    IngestionService.processPacket IngestionConfig.default 5 stateBuf1 (packetR 0)
      = { stateBuf1 with monitor := ⟨(packetR 0).is_race_on⟩ } :=
  nonRaceOn_only_updates_monitor IngestionConfig.default 5 stateBuf1 (packetR 0) (by decide)

/-- Claim C6: a processed packet is appended to the buffer (enriched) iff
`is_race_on = 1`; once the buffer length reaches `buffer_size` the flush
runs immediately, emptying the buffer and handing the batch over; the
default `buffer_size` is 60. -/
theorem processPacket_buffering (cfg : IngestionConfig) (now : ℚ)
    (s : IngestionState) (p : TelemetryPacket) :
    (p.is_race_on ≠ 1 →
        (IngestionService.processPacket cfg now s p).buffer = s.buffer
        ∧ (IngestionService.processPacket cfg now s p).active_saves = s.active_saves)
    ∧ (p.is_race_on = 1 → s.buffer.length + 1 < cfg.buffer_size →
        IngestionService.processPacket cfg now s p =
          { s with monitor := ⟨1⟩,
                   buffer := s.buffer ++ [IngestionService.enrichPacket s.current_session_id p] })
    ∧ (p.is_race_on = 1 → cfg.buffer_size ≤ s.buffer.length + 1 →
        IngestionService.processPacket cfg now s p =
          { s with monitor := ⟨1⟩, buffer := [], last_flush_time := now,
                   active_saves := s.active_saves ++
                     [s.buffer ++ [IngestionService.enrichPacket s.current_session_id p]] })
    ∧ IngestionConfig.default.buffer_size = 60 := by
  refine ⟨?_, ?_, ?_, rfl⟩
  · intro h
    simp [IngestionService.processPacket, RaceStateMonitor.detect_events, h]
  · intro h hlt
    have hn : ¬ cfg.buffer_size ≤ s.buffer.length + 1 := by omega
    simp [IngestionService.processPacket, RaceStateMonitor.detect_events, h, hn]
  · intro h hge
    have hne : s.buffer ++ [IngestionService.enrichPacket s.current_session_id p] ≠ [] := by
      simp
    simp [IngestionService.processPacket, RaceStateMonitor.detect_events, h,
      IngestionService.flushStep, hne, hge]

/-- The state of a freshly constructed `IngestionService`. -/
def emptyIngestion : IngestionState :=
  { buffer := [], monitor := ⟨0⟩, last_flush_time := 0,
    active_saves := [], current_session_id := none }

/-- A test configuration with `buffer_size = 2`. -/
def smallCfg : IngestionConfig := ⟨2, 1⟩

/-- Witness for C6 with `buffer_size = 2`: a non-race packet changes no
buffer, a first in-race packet is appended, a second one fills the buffer
and flushes it. -/
theorem processPacket_buffering_witness :
    ((IngestionService.processPacket smallCfg 5 emptyIngestion (packetR 0)).buffer
        = emptyIngestion.buffer
      ∧ (IngestionService.processPacket smallCfg 5 emptyIngestion (packetR 0)).active_saves
        = emptyIngestion.active_saves)
    ∧ IngestionService.processPacket smallCfg 5 emptyIngestion (packetR 1) =
        { emptyIngestion with
            monitor := ⟨1⟩,
            buffer := emptyIngestion.buffer ++
              [IngestionService.enrichPacket emptyIngestion.current_session_id (packetR 1)] }
    ∧ IngestionService.processPacket smallCfg 5 stateBuf1 (packetR 1) =
        { stateBuf1 with
            monitor := ⟨1⟩,
            buffer := [],
            last_flush_time := 5,
            active_saves := stateBuf1.active_saves ++
              [stateBuf1.buffer ++
                [IngestionService.enrichPacket stateBuf1.current_session_id (packetR 1)]] } :=
  ⟨(processPacket_buffering smallCfg 5 emptyIngestion (packetR 0)).1 (by decide),
   (processPacket_buffering smallCfg 5 emptyIngestion (packetR 1)).2.1 (by decide) (by decide),
   (processPacket_buffering smallCfg 5 stateBuf1 (packetR 1)).2.2.1 (by decide) (by decide)⟩

/-- Counterexample to claim C7 as stated: with `current_session_id = 0` an
id *is* set, yet enrichment returns the packet unchanged
(`if self._current_session_id:` is false for `0`), so `session_id` is not
populated. -/
theorem enrich_zero_id_counterexample :
    IngestionService.enrichPacket (some 0) zeroPacket = zeroPacket
    ∧ zeroPacket.session_id = none := ⟨rfl, rfl⟩

/-- Claim C7 (amended): enrichment returns a copy with `session_id`
populated when a *non-zero* id is set, and returns the packet unchanged
when no id is set or the id is `0` (Python truthiness); the wire decoder
always yields `session_id = none`. -/
theorem enrichment_and_decoder_session (p : TelemetryPacket) :
    (IngestionService.enrichPacket none p = p)
    ∧ (IngestionService.enrichPacket (some 0) p = p)
    ∧ (∀ i : Int, i ≠ 0 →
        IngestionService.enrichPacket (some i) p = { p with session_id := some i })
    ∧ (∀ (data : List Nat) (q : TelemetryPacket),
        PacketParser.parse data = some q → q.session_id = none) := by
  refine ⟨rfl, rfl, ?_, ?_⟩
  · intro i hi
    simp [IngestionService.enrichPacket, truthyId, hi]
  · intro data q hq
    unfold PacketParser.parse PacketParser.unpackV1 at hq
    split_ifs at hq
    all_goals cases hq
    all_goals rfl

/-- Witness for C7 (amended) at concrete ids and a concrete decode. -/
theorem enrichment_and_decoder_session_witness :
    (IngestionService.enrichPacket none (packetR 1) = packetR 1)
    ∧ (IngestionService.enrichPacket (some 0) (packetR 1) = packetR 1)
    ∧ (IngestionService.enrichPacket (some 7) (packetR 1)
        = { (packetR 1) with session_id := some 7 })
    ∧ zeroPacket.session_id = none :=
  ⟨(enrichment_and_decoder_session (packetR 1)).1,
   (enrichment_and_decoder_session (packetR 1)).2.1,
   (enrichment_and_decoder_session (packetR 1)).2.2.1 7 (by decide),
   (enrichment_and_decoder_session (packetR 1)).2.2.2 (List.replicate 311 0) zeroPacket
     (by decide)⟩

/-- Counterexample to claim C4 as stated: when session creation fails, the
previous id is indeed preserved, but `set_session` swallows the exception
(it only logs), so `POST /session/start` answers `status = "success"`,
not an error. -/
theorem session_failure_success_counterexample :
    (Server.start_session (some 7) (Except.error "db down")).1 = some 7
    ∧ (Server.start_session (some 7) (Except.error "db down")).2.status = "success"
    ∧ (Server.start_session (some 7) (Except.error "db down")).2.status ≠ "error" := by
  exact ⟨rfl, rfl, by decide⟩

/-- Claim C4 (amended): when the store insert raises, the previously held
`current_session_id` is preserved unchanged; the failure is only logged —
the control-API caller receives `status = "success"`. On success the new
id is stored. -/
theorem session_failure_swallowed (current : Option Int) (msg : String) :
    IngestionService.set_session current (Except.error msg) = current
    ∧ (Server.start_session current (Except.error msg)).1 = current
    ∧ (Server.start_session current (Except.error msg)).2.status = "success"
    ∧ ∀ i : Int, IngestionService.set_session current (Except.ok i) = some i :=
  ⟨rfl, rfl, rfl, fun _ => rfl⟩

/-- Counterexample to claim C5 as stated: with the store failing on every
attempt, the sleeps are `0.5 s` then `1.0 s` only — no `1.5 s` sleep ever
occurs (the final failed attempt logs the drop and exits the loop). -/
theorem saveRetry_delays_counterexample :
    IngestionService.save_safe (fun _ => true) [zeroPacket] =
      [SaveAction.attemptSave, SaveAction.warnRetry 1, SaveAction.sleepSec (1 / 2),
       SaveAction.attemptSave, SaveAction.warnRetry 2, SaveAction.sleepSec 1,
       SaveAction.attemptSave, SaveAction.logDropped 1]
    ∧ SaveAction.sleepSec (3 / 2) ∉ IngestionService.save_safe (fun _ => true) [zeroPacket] := by
  constructor
  · show IngestionService.saveAttempts _ _ (List.range 3) = _
    norm_num [IngestionService.saveAttempts, List.range_succ, maxRetries]
  · norm_num [IngestionService.save_safe, IngestionService.saveAttempts,
      List.range_succ, maxRetries, List.mem_cons]
    refine ⟨?_, ?_, ?_, ?_, ?_, ?_⟩ <;> intro h <;> cases h

/-- Claim C5 (amended): every save task makes at most 3 bulk-insert
attempts, sleeping `0.5 s` after the first failed attempt and `1.0 s`
after the second; after the third failed attempt it drops the batch and
logs the dropped count, with no sleep and without raising to its caller. -/
theorem saveRetry_attempts (failsAt : Nat → Bool) (packets : List TelemetryPacket) :
    (IngestionService.save_safe failsAt packets).countP
        (fun a => decide (a = SaveAction.attemptSave)) ≤ 3
    ∧ (failsAt 0 = true → failsAt 1 = true → failsAt 2 = true →
        IngestionService.save_safe failsAt packets =
          [SaveAction.attemptSave, SaveAction.warnRetry 1, SaveAction.sleepSec (1 / 2),
           SaveAction.attemptSave, SaveAction.warnRetry 2, SaveAction.sleepSec 1,
           SaveAction.attemptSave, SaveAction.logDropped packets.length]) := by
  constructor
  · cases h0 : failsAt 0 <;> cases h1 : failsAt 1 <;> cases h2 : failsAt 2 <;>
      simp [IngestionService.save_safe, IngestionService.saveAttempts,
        List.range_succ, maxRetries, h0, h1, h2, List.countP_cons]
  · intro h0 h1 h2
    norm_num [IngestionService.save_safe, IngestionService.saveAttempts,
      List.range_succ, maxRetries, h0, h1, h2]

/-- Witness for C5 (amended): an always-failing store on a one-packet
batch. -/
theorem saveRetry_attempts_witness :
    (IngestionService.save_safe (fun _ => false) [zeroPacket]).countP
        (fun a => decide (a = SaveAction.attemptSave)) ≤ 3
    ∧ IngestionService.save_safe (fun _ => true) [zeroPacket] =
        [SaveAction.attemptSave, SaveAction.warnRetry 1, SaveAction.sleepSec (1 / 2),
         SaveAction.attemptSave, SaveAction.warnRetry 2, SaveAction.sleepSec 1,
         SaveAction.attemptSave, SaveAction.logDropped [zeroPacket].length] :=
  ⟨(saveRetry_attempts (fun _ => false) [zeroPacket]).1,
   (saveRetry_attempts (fun _ => true) [zeroPacket]).2 rfl rfl rfl⟩

/-- A listener whose queue holds one datagram (full for `maxsize = 1`). -/
def udpFullState : UdpListener := ⟨[([0], ("127.0.0.1", 5300))], 0⟩

/-- Counterexample to claim C8 as stated: a first full-queue datagram at
`t = 5` logs the warning and updates only `_last_error_log_time`; a second
full-queue datagram at the same time leaves the listener state completely
unchanged — the code keeps no dropped-count counter, so nothing is
incremented on a drop. -/
theorem udp_no_drop_counter_counterexample :
    UdpListener.datagram_received 1 udpFullState [1] ("127.0.0.1", 5300) 5 =
      (⟨[([0], ("127.0.0.1", 5300))], 5⟩, true)
    ∧ UdpListener.datagram_received 1 ⟨[([0], ("127.0.0.1", 5300))], 5⟩ [2] ("127.0.0.1", 5300) 5 =
      (⟨[([0], ("127.0.0.1", 5300))], 5⟩, false) := by
  constructor
  · show (if (1 : Nat) < 1 then _ else if (1 : ℚ) ≤ 5 - 0 then _ else _) = _
    norm_num [udpFullState]
  · show (if (1 : Nat) < 1 then _ else if (1 : ℚ) ≤ 5 - 5 then _ else _) = _
    norm_num

/-- Claim C8 (amended): on a full channel the datagram is dropped —
already-queued datagrams are untouched — and the queue-full warning is
emitted iff at least one second has passed since the last warning, whose
timestamp is then updated; no dropped-count counter is maintained (the
timestamp is the only state that changes). -/
theorem udp_drop_tail (maxsize : Nat) (l : UdpListener) (d : List Nat)
    (a : String × Nat) (now : ℚ) (hfull : maxsize ≤ l.queue.length) :
    ((UdpListener.datagram_received maxsize l d a now).1.queue = l.queue)
    ∧ ((UdpListener.datagram_received maxsize l d a now).2 = true ↔
        1 ≤ now - l.last_error_log_time)
    ∧ ((UdpListener.datagram_received maxsize l d a now).1 =
        if 1 ≤ now - l.last_error_log_time then
          { l with last_error_log_time := now } else l) := by
  have h : ¬ l.queue.length < maxsize := by omega
  unfold UdpListener.datagram_received
  rw [if_neg h]
  split_ifs with h1 <;> simp [h1]

/-- Witness for C8 (amended) on a concrete full listener. -/
theorem udp_drop_tail_witness :
    ((UdpListener.datagram_received 1 udpFullState [1] ("127.0.0.1", 5300) 5).1.queue
        = udpFullState.queue)
    ∧ ((UdpListener.datagram_received 1 udpFullState [1] ("127.0.0.1", 5300) 5).2 = true ↔
        1 ≤ (5 : ℚ) - udpFullState.last_error_log_time)
    ∧ ((UdpListener.datagram_received 1 udpFullState [1] ("127.0.0.1", 5300) 5).1 =
        if 1 ≤ (5 : ℚ) - udpFullState.last_error_log_time then
          { udpFullState with last_error_log_time := 5 } else udpFullState) :=
  udp_drop_tail 1 udpFullState [1] ("127.0.0.1", 5300) 5 (by decide)

/-- Claim C10: flushing with an empty buffer changes no state (in
particular the last-flush timestamp stays put) and spawns no save task;
every batch handed to a save task is non-empty; and the Postgres sink
performs no store operation on an empty batch. -/
theorem flush_empty_guard :
    (∀ (now : ℚ) (s : IngestionState), s.buffer = [] →
        IngestionService.flushStep now s = s)
    ∧ (∀ (now : ℚ) (s : IngestionState) (b : List TelemetryPacket),
        b ∈ (IngestionService.flushStep now s).active_saves →
        b ∈ s.active_saves ∨ (b = s.buffer ∧ b ≠ []))
    ∧ PostgresRepository.save_batch [] = [] := by
  refine ⟨?_, ?_, rfl⟩
  · intro now s h
    simp [IngestionService.flushStep, h]
  · intro now s b hb
    unfold IngestionService.flushStep at hb
    split_ifs at hb with h
    · exact Or.inl hb
    · simp only [List.mem_append, List.mem_singleton] at hb
      rcases hb with hb | hb
      · exact Or.inl hb
      · exact Or.inr ⟨hb, hb ▸ h⟩

/-- Witness for C10 at concrete states. -/
theorem flush_empty_guard_witness :
    IngestionService.flushStep 5 emptyIngestion = emptyIngestion
    ∧ ([packetR 1] ∈ stateBuf1.active_saves
        ∨ ([packetR 1] = stateBuf1.buffer ∧ [packetR 1] ≠ [])) :=
  ⟨flush_empty_guard.1 5 emptyIngestion rfl,
   flush_empty_guard.2.1 5 stateBuf1 [packetR 1] (by decide)⟩

end ForzaCore
